import Mathlib

/-!
Verification of the CSV chat application (src/app.py).

The application is a single-page Streamlit app: the user uploads a CSV,
a textual profile of the dataset is built (`data_summary`, app.py lines
114-125), a three-message sequence is composed for the LLM (lines
128-132), the LLM is invoked (line 135), and a per-session message log
(`st.session_state.messages`) records the conversation (lines 104-142).

The embedding below translates those parts into Lean:
* `Table` models the loaded pandas DataFrame at the granularity the
  profile needs: named columns with a numeric flag, a rendered dtype
  name, and rendered cell values.
* `data_summary` mirrors the f-string of lines 114-125; pandas
  renderings (`to_string`, the dtype dict) are abstracted as plain
  concatenations of the same underlying data, and `df.describe()`
  column selection follows pandas semantics: with no `include`
  argument it covers only the numeric columns when at least one
  exists, otherwise all columns (`describedCols`).
* `composeMessages` mirrors the `messages` list literal of lines
  128-132; the session log is in scope there but unused, so it is an
  (ignored) parameter here.
* `processQuery` mirrors the ask-button branch of lines 104-153: the
  guard `if ask_button and query.strip()`, the append of the user
  message before the try block, the LLM call, and the append of the
  assistant message on success (on exception the log keeps the
  already-appended user message).
* The LLM collaborator is an oracle parameter of type
  `List Message → Except String String`.
-/

namespace ChatCSV

/-- Message roles of the chat API. -/
inductive Role where
  | system
  | user
  | assistant
deriving DecidableEq

/-- A (role, content) chat message. -/
structure Message where
  role : Role
  content : String
deriving DecidableEq

/-- One column of the loaded DataFrame: its name, whether pandas infers a
numeric dtype for it, the rendered dtype name, and the rendered cell
values in row order. -/
structure Column where
  name : String
  isNumeric : Bool
  dtypeName : String
  values : List String
deriving DecidableEq

/-- The loaded DataFrame (`df` in app.py). -/
structure Table where
  cols : List Column
deriving DecidableEq

/-- `df.shape[0]`: number of rows (all columns share one length). -/
def Table.nrows (t : Table) : Nat :=
  (t.cols.head?.map (fun c => c.values.length)).getD 0

/-- `df.shape[1]`: number of columns. -/
def Table.ncols (t : Table) : Nat := t.cols.length

/-- The static system prompt, app.py lines 23-25. -/
def SYSTEM_PROMPT : String :=
  "You are an expert data analyst. Analyze the data and answer questions accurately.\nWhen asked about data, provide clear, concise answers based only on the information available.\nIf asked to perform calculations, show your work."

/-- Python `str.strip()` on the underlying character list: drop leading
and trailing whitespace. -/
def stripChars (l : List Char) : List Char :=
  ((l.dropWhile Char.isWhitespace).reverse.dropWhile Char.isWhitespace).reverse

/-- Python `query.strip()` (app.py lines 104 and 152). -/
def pyStrip (s : String) : String := ⟨stripChars s.data⟩

/-- `df.columns.tolist()`: the full list of column names. -/
def columnNames (t : Table) : List String := t.cols.map Column.name

/-- `df.dtypes.to_dict()` rendered; the embedding elides the Python dict
braces and quoting and keeps the name/dtype pairs. -/
def dtypesLine (t : Table) : String :=
  String.intercalate ", " (t.cols.map (fun c => c.name ++ ": " ++ c.dtypeName))

/-- `df.head(10)`: the first `min 10 nrows` rows, each row the list of its
rendered cells. -/
def headRows (t : Table) : List (List String) :=
  (List.range (min 10 t.nrows)).map
    (fun i => t.cols.map (fun c => c.values.getD i ""))

/-- `df.head(10).to_string()`, rendering abstracted as space/newline
joined cells. -/
def headToString (t : Table) : String :=
  String.intercalate "\n" ((headRows t).map (String.intercalate " "))

/-- The columns `df.describe()` covers. With no `include` argument pandas
describes only the numeric columns when at least one exists, and all
columns otherwise. -/
def describedCols (t : Table) : List Column :=
  if t.cols.any Column.isNumeric then t.cols.filter (fun c => c.isNumeric)
  else t.cols

/-- `df.describe().to_string()`, rendering abstracted: one line per
described column with its non-null count. -/
def describeToString (t : Table) : String :=
  String.intercalate "\n"
    ((describedCols t).map (fun c => c.name ++ " count " ++ toString c.values.length))

/-- The `data_summary` f-string of app.py lines 114-125. -/
def data_summary (t : Table) : String :=
  "\nDataset Information:\n- Shape: " ++ toString t.nrows ++ " rows, " ++
    toString t.ncols ++ " columns\n- Columns: " ++
    String.intercalate ", " (columnNames t) ++ "\n- Data types: " ++
    dtypesLine t ++ "\n\nFirst few rows:\n" ++ headToString t ++
    "\n\nSummary statistics:\n" ++ describeToString t ++ "\n"

/-- The second system message of app.py line 130. -/
def profileMessage (t : Table) : Message :=
  ⟨Role.system, "Here\x27s the data you\x27re analyzing:\n" ++ data_summary t⟩

/-- The `messages` list literal of app.py lines 128-132. The session log
(`st.session_state.messages`) is in scope at that point but unused; it is
kept as a parameter to make that independence statable. -/
def composeMessages (history : List Message) (t : Table) (query : String) :
    List Message :=
  [⟨Role.system, SYSTEM_PROMPT⟩, profileMessage t, ⟨Role.user, query⟩]

/-- Outcome of one ask-button press: the new session log, whether the LLM
was invoked, the displayed answer, and the displayed error. -/
structure QueryResult where
  state : List Message
  invoked : Bool
  answer : Option String
  err : Option String
deriving DecidableEq

/-- The ask-button branch of app.py lines 104-153.
`if ask_button and query.strip():` guards the whole branch, so a
whitespace-only question changes nothing and never reaches the LLM.
Inside the branch the user message is appended first (lines 106-109),
then the LLM is invoked inside try; on success the assistant message is
appended (lines 139-142), on exception the log keeps the user message
already appended (lines 148-150). -/
def processQuery (llm : List Message → Except String String) (t : Table)
    (state : List Message) (askButton : Bool) (query : String) : QueryResult :=
  if askButton && !(pyStrip query == "") then
    let state1 := state ++ [⟨Role.user, query⟩]
    match llm (composeMessages state1 t query) with
    | .ok ans => ⟨state1 ++ [⟨Role.assistant, ans⟩], true, some ans, none⟩
    | .error e => ⟨state1, true, none, some e⟩
  else ⟨state, false, none, none⟩

/-- The clear-history branch of app.py lines 98-101:
`st.session_state.messages = []`. -/
def clearHistory (state : List Message) : List Message := []

/-- One question/answer pair (an Exchange of the spec). -/
structure Exchange where
  question : String
  answer : String
deriving DecidableEq

/-- Render a list of Exchanges as the flat session log: user question
then assistant answer, per exchange. -/
def flattenHistory : List Exchange → List Message
  | [] => []
  | e :: rest =>
      ⟨Role.user, e.question⟩ :: ⟨Role.assistant, e.answer⟩ :: flattenHistory rest

/-- Read the flat session log back as Exchanges, pairing consecutive
messages; a trailing unpaired message is dropped. -/
def toExchanges : List Message → List Exchange
  | m1 :: m2 :: rest => ⟨m1.content, m2.content⟩ :: toExchanges rest
  | _ => []

/-- Read-only Exchange view of the session log. -/
def snapshot (state : List Message) : List Exchange := toExchanges state

/-- An LLM collaborator that always succeeds, answering with `f`. -/
def okLlm (f : List Message → String) : List Message → Except String String :=
  fun ms => .ok (f ms)

/-- An LLM collaborator that always fails with error text `e`. -/
def failLlm (e : String) : List Message → Except String String :=
  fun _ => .error e

/-- The answer a succeeding collaborator `f` gives to question `q`
(the composed sequence does not depend on the session log). -/
def answerFor (f : List Message → String) (t : Table) (q : String) : String :=
  f (composeMessages [] t q)

/-- Run a sequence of ask-button presses, threading the session log. -/
def runQueries (llm : List Message → Except String String) (t : Table)
    (state : List Message) (queries : List String) : List Message :=
  queries.foldl (fun s q => (processQuery llm t s true q).state) state

/-- The session log a succeeding collaborator produces for a list of
questions: user/assistant pairs in submission order. -/
def cycleLog (f : List Message → String) (t : Table) : List String → List Message
  | [] => []
  | q :: qs =>
      ⟨Role.user, q⟩ :: ⟨Role.assistant, answerFor f t q⟩ :: cycleLog f t qs

/-- The log strictly alternates user/assistant roles starting with user
and ending with assistant. -/
def alternatesUA : List Message → Bool
  | [] => true
  | ⟨Role.user, _⟩ :: ⟨Role.assistant, _⟩ :: rest => alternatesUA rest
  | _ => false

/-- The scenario table of the spec: columns region (non-numeric) and
sales (numeric), 3 rows. -/
def sampleTable : Table :=
  ⟨[⟨"region", false, "object", ["North", "South", "East"]⟩,
    ⟨"sales", true, "int64", ["10", "20", "30"]⟩]⟩

/-- A non-whitespace question makes the ask-button guard true. -/
theorem guard_true (q : String) (hq : pyStrip q ≠ "") :
    (true && !(pyStrip q == "")) = true := by
  simp [hq]

/-- A successful collaborator call appends the user question and the
assistant answer, in that order. -/
theorem processQuery_ok_eq (f : List Message → String) (t : Table)
    (s : List Message) (q : String) (hq : pyStrip q ≠ "") :
    processQuery (okLlm f) t s true q =
      ⟨s ++ [⟨Role.user, q⟩, ⟨Role.assistant, answerFor f t q⟩], true,
        some (answerFor f t q), none⟩ := by
  simp only [processQuery, okLlm, guard_true q hq, if_true, answerFor,
    composeMessages, List.append_assoc, List.singleton_append]

/-- A failed collaborator call leaves the already-appended user question
in the log and reports the error. -/
theorem processQuery_error_eq (e : String) (t : Table) (s : List Message)
    (q : String) (hq : pyStrip q ≠ "") :
    processQuery (failLlm e) t s true q =
      ⟨s ++ [⟨Role.user, q⟩], true, none, some e⟩ := by
  simp only [processQuery, failLlm, guard_true q hq, if_true]

/-- Running a list of non-whitespace questions against a succeeding
collaborator appends the corresponding user/assistant pairs. -/
theorem runQueries_ok (f : List Message → String) (t : Table)
    (s : List Message) (qs : List String) (hqs : ∀ q ∈ qs, pyStrip q ≠ "") :
    runQueries (okLlm f) t s qs = s ++ cycleLog f t qs := by
  induction qs generalizing s with
  | nil => simp [runQueries, cycleLog]
  | cons q qs ih =>
      have hq : pyStrip q ≠ "" := hqs q (List.mem_cons_self q qs)
      have hqs2 : ∀ r ∈ qs, pyStrip r ≠ "" := fun r hr => hqs r (List.mem_cons_of_mem q hr)
      show runQueries (okLlm f) t ((processQuery (okLlm f) t s true q).state) qs = _
      rw [processQuery_ok_eq f t s q hq, ih _ hqs2]
      simp [cycleLog, List.append_assoc]

theorem flattenHistory_append (h1 h2 : List Exchange) :
    flattenHistory (h1 ++ h2) = flattenHistory h1 ++ flattenHistory h2 := by
  induction h1 with
  | nil => rfl
  | cons e rest ih => simp [flattenHistory, ih]

theorem toExchanges_flattenHistory (h : List Exchange) :
    toExchanges (flattenHistory h) = h := by
  induction h with
  | nil => rfl
  | cons e rest ih => simp [flattenHistory, toExchanges, ih]

theorem cycleLog_eq_flatten (f : List Message → String) (t : Table)
    (qs : List String) :
    cycleLog f t qs = flattenHistory (qs.map (fun q => ⟨q, answerFor f t q⟩)) := by
  induction qs with
  | nil => rfl
  | cons q qs ih => simp [cycleLog, flattenHistory, ih]

theorem cycleLog_length (f : List Message → String) (t : Table)
    (qs : List String) : (cycleLog f t qs).length = 2 * qs.length := by
  induction qs with
  | nil => rfl
  | cons q qs ih => simp [cycleLog, ih]; omega

theorem alternatesUA_cycleLog (f : List Message → String) (t : Table)
    (qs : List String) : alternatesUA (cycleLog f t qs) = true := by
  induction qs with
  | nil => rfl
  | cons q qs ih => simpa [cycleLog, alternatesUA] using ih

/-- Claim C1, counterexample: the claim says a failed collaborator call
leaves the History length unchanged, but the handler appends the user
question before invoking the collaborator, so after a failing request
from an empty log the log has length 1, not 0. -/
theorem C1_counterexample :
    (processQuery (failLlm "rate limit") sampleTable [] true
        "What is the average sales?").state ≠ [] ∧
    ((processQuery (failLlm "rate limit") sampleTable [] true
        "What is the average sales?").state).length = 1 := by
  constructor <;> decide

/-- Claim C1, amended: when the collaborator fails on request k the log
gains exactly the dangling user question (length grows by one) and shows
no answer, and a subsequent valid request still succeeds normally,
appending its user/assistant pair. -/
theorem C1_failure_isolation (s : List Message) (t : Table)
    (q q2 e : String) (f : List Message → String)
    (hq : pyStrip q ≠ "") (hq2 : pyStrip q2 ≠ "") :
    (processQuery (failLlm e) t s true q).state = s ++ [⟨Role.user, q⟩] ∧
    (processQuery (failLlm e) t s true q).answer = none ∧
    (processQuery (okLlm f) t (s ++ [⟨Role.user, q⟩]) true q2).state =
      s ++ [⟨Role.user, q⟩] ++
        [⟨Role.user, q2⟩, ⟨Role.assistant, answerFor f t q2⟩] ∧
    (processQuery (okLlm f) t (s ++ [⟨Role.user, q⟩]) true q2).answer =
      some (answerFor f t q2) := by
  have h1 := processQuery_error_eq e t s q hq
  have h2 := processQuery_ok_eq f t (s ++ [(⟨Role.user, q⟩ : Message)]) q2 hq2
  rw [h1, h2]
  exact ⟨rfl, rfl, rfl, rfl⟩

/-- Witness for C1_failure_isolation at a concrete failed request
followed by a concrete successful one. -/
theorem C1_witness :
    (pyStrip "bad question" ≠ "") ∧ (pyStrip "good question" ≠ "") ∧
    (processQuery (failLlm "boom") sampleTable [] true "bad question").state =
      [] ++ [⟨Role.user, "bad question"⟩] ∧
    (processQuery (okLlm (fun _ => "42")) sampleTable
        ([] ++ [⟨Role.user, "bad question"⟩]) true "good question").answer =
      some (answerFor (fun _ => "42") sampleTable "good question") :=
  ⟨by decide, by decide,
    (C1_failure_isolation [] sampleTable "bad question" "good question"
      "boom" (fun _ => "42") (by decide) (by decide)).1,
    (C1_failure_isolation [] sampleTable "bad question" "good question"
      "boom" (fun _ => "42") (by decide) (by decide)).2.2.2⟩

/-- Claim C2, confirmed: for every non-empty trimmed question the
composed sequence starts with the system instruction message followed by
the system data-profile message, whatever the History. -/
theorem C2_first_two_messages (hist : List Message) (t : Table) (q : String)
    (hq : pyStrip q ≠ "") :
    (composeMessages hist t q).take 2 =
      [⟨Role.system, SYSTEM_PROMPT⟩, profileMessage t] := rfl

/-- Witness for C2_first_two_messages at a concrete question and the
scenario table. -/
theorem C2_witness :
    (pyStrip "What is the average sales?" ≠ "") ∧
    (composeMessages [] sampleTable "What is the average sales?").take 2 =
      [⟨Role.system, SYSTEM_PROMPT⟩, profileMessage sampleTable] :=
  ⟨by decide,
    C2_first_two_messages [] sampleTable "What is the average sales?" (by decide)⟩

/-- Claim C3, counterexample: the claim says full-History replay is a
supported configuration; but with a non-empty History the composed
sequence is not the History re-rendered after the two system messages —
the composer has no policy option and never emits History entries. -/
theorem C3_counterexample :
    composeMessages [⟨Role.user, "x"⟩, ⟨Role.assistant, "y"⟩] sampleTable "q" ≠
      [⟨Role.system, SYSTEM_PROMPT⟩, profileMessage sampleTable,
        ⟨Role.user, "x"⟩, ⟨Role.assistant, "y"⟩, ⟨Role.user, "q"⟩] := by
  intro h
  have hlen := congrArg List.length h
  simp [composeMessages] at hlen

/-- Claim C3, amended: only policy (b) is implemented — for every History
the composer emits exactly the two system messages followed by the new
question as a single user message; there is no configuration option
selecting full-History replay. -/
theorem C3_single_policy (hist : List Message) (t : Table) (q : String) :
    composeMessages hist t q =
      [⟨Role.system, SYSTEM_PROMPT⟩, profileMessage t, ⟨Role.user, q⟩] := rfl

/-- Claim C4, counterexample: on the scenario table (region non-numeric,
sales numeric) the summary-statistics section covers only the numeric
column sales; region is a column of the table yet is not covered, so the
statistics do not cover all columns. -/
theorem C4_counterexample :
    "region" ∈ columnNames sampleTable ∧
    "sales" ∈ (describedCols sampleTable).map Column.name ∧
    "region" ∉ (describedCols sampleTable).map Column.name := by
  refine ⟨by decide, by decide, by decide⟩

/-- Claim C4, amended: the profile lists every column name untruncated
and caps the sampled head rows at 10, but the descriptive statistics
cover a column iff it is numeric or no column of the table is numeric
(describe with no include argument covers only numeric columns when any
exist). -/
theorem C4_profile_coverage (t : Table) (c : Column) :
    columnNames t = t.cols.map Column.name ∧
    (headRows t).length = min 10 t.nrows ∧
    (headRows t).length ≤ 10 ∧
    (c ∈ describedCols t ↔ c ∈ t.cols ∧
      (c.isNumeric = true ∨ ∀ c2 ∈ t.cols, c2.isNumeric = false)) := by
  refine ⟨rfl, by simp [headRows], by simp [headRows], ?_⟩
  unfold describedCols
  by_cases hAny : t.cols.any Column.isNumeric = true
  · rw [if_pos hAny]
    rw [List.any_eq_true] at hAny
    obtain ⟨c0, hc0, hc0n⟩ := hAny
    simp only [List.mem_filter]
    constructor
    · rintro ⟨hmem, hnum⟩
      exact ⟨hmem, Or.inl hnum⟩
    · rintro ⟨hmem, hnum | hall⟩
      · exact ⟨hmem, hnum⟩
      · exact absurd hc0n (by simp [hall c0 hc0])
  · rw [if_neg hAny]
    rw [List.any_eq_true] at hAny
    push_neg at hAny
    constructor
    · intro hmem
      refine ⟨hmem, Or.inr ?_⟩
      intro c2 hc2
      simpa using hAny c2 hc2
    · exact fun h => h.1

/-- Claim C5, confirmed: a question that is empty after trimming leaves
the session log unchanged and never invokes the collaborator, whether or
not the ask button was pressed. -/
theorem C5_whitespace_rejected (llm : List Message → Except String String)
    (t : Table) (s : List Message) (ab : Bool) (q : String)
    (hq : pyStrip q = "") :
    (processQuery llm t s ab q).state = s ∧
    (processQuery llm t s ab q).invoked = false := by
  unfold processQuery
  rw [hq]
  simp

/-- Witness for C5_whitespace_rejected on a whitespace-only question with
a failing collaborator present. -/
theorem C5_witness :
    (pyStrip "   " = "") ∧
    (processQuery (failLlm "never called") sampleTable [] true "   ").state = [] ∧
    (processQuery (failLlm "never called") sampleTable [] true "   ").invoked =
      false :=
  ⟨by decide,
    (C5_whitespace_rejected (failLlm "never called") sampleTable [] true "   "
      (by decide)).1,
    (C5_whitespace_rejected (failLlm "never called") sampleTable [] true "   "
      (by decide)).2⟩

/-- Claim C6, counterexample: starting from a History already holding one
Exchange, one successful cycle yields a snapshot of length 2, not the
claimed length N = 1 — the claim fails for non-empty starting states. -/
theorem C6_counterexample :
    (snapshot (runQueries (okLlm (fun _ => "42")) sampleTable
        (flattenHistory [⟨"q0", "a0"⟩]) ["q1"])).length ≠ 1 := by
  decide

/-- Claim C6, amended: after N successful cycles the snapshot has length
(starting length + N); the new Exchanges are appended in submission
order, each question matching the submitted text. -/
theorem C6_append_only (h : List Exchange) (qs : List String)
    (f : List Message → String) (t : Table)
    (hqs : ∀ q ∈ qs, pyStrip q ≠ "") :
    snapshot (runQueries (okLlm f) t (flattenHistory h) qs) =
      h ++ qs.map (fun q => ⟨q, answerFor f t q⟩) ∧
    (snapshot (runQueries (okLlm f) t (flattenHistory h) qs)).length =
      h.length + qs.length ∧
    (snapshot (runQueries (okLlm f) t (flattenHistory h) qs)).map
        Exchange.question = h.map Exchange.question ++ qs := by
  have hrun : snapshot (runQueries (okLlm f) t (flattenHistory h) qs) =
      h ++ qs.map (fun q => ⟨q, answerFor f t q⟩) := by
    rw [snapshot, runQueries_ok f t _ qs hqs, cycleLog_eq_flatten,
      ← flattenHistory_append, toExchanges_flattenHistory]
  refine ⟨hrun, ?_, ?_⟩
  · rw [hrun]; simp
  · rw [hrun]
    simp only [List.map_append, List.map_map]
    have hid : (Exchange.question ∘ fun q => (⟨q, answerFor f t q⟩ : Exchange)) =
        fun q => q := rfl
    rw [hid, List.map_id']

/-- Witness for C6_append_only: the spec scenario — a stubbed
collaborator returning 42 leaves History = [(question, 42)]. -/
theorem C6_witness :
    (∀ q ∈ ["What is the average sales?"], pyStrip q ≠ "") ∧
    snapshot (runQueries (okLlm (fun _ => "42")) sampleTable
        (flattenHistory []) ["What is the average sales?"]) =
      [⟨"What is the average sales?",
        answerFor (fun _ => "42") sampleTable "What is the average sales?"⟩] :=
  ⟨by decide,
    (C6_append_only [] ["What is the average sales?"] (fun _ => "42")
      sampleTable (by decide)).1⟩

/-- Claim C7, confirmed: clearing the History is idempotent, always
leaves it empty, and the snapshot after clearing is the empty sequence. -/
theorem C7_clear_idempotent (s : List Message) :
    clearHistory (clearHistory s) = clearHistory s ∧
    clearHistory s = [] ∧
    snapshot (clearHistory s) = [] :=
  ⟨rfl, rfl, rfl⟩

/-- Claim C8, confirmed: the profiler is a pure function of the Table —
two invocations on an unchanged Table yield identical Profile text. -/
theorem C8_profiler_deterministic (t1 t2 : Table) (h : t1 = t2) :
    data_summary t1 = data_summary t2 := by
  rw [h]

/-- Witness for C8_profiler_deterministic on the scenario table. -/
theorem C8_witness : data_summary sampleTable = data_summary sampleTable :=
  C8_profiler_deterministic sampleTable sampleTable rfl

/-- Claim C9, confirmed: the composed sequence always has exactly three
messages — system instruction, system data-profile, and the question as
a single user message — is identical for any two Histories (the History
is never consulted, so no History entry is replayed into it), and holds
no assistant-role message at all. -/
theorem C9_exactly_three (h1 h2 : List Message) (t : Table) (q : String) :
    (composeMessages h1 t q).length = 3 ∧
    composeMessages h1 t q = composeMessages h2 t q ∧
    composeMessages h1 t q =
      [⟨Role.system, SYSTEM_PROMPT⟩, profileMessage t, ⟨Role.user, q⟩] ∧
    ∀ m ∈ composeMessages h1 t q, m.role ≠ Role.assistant := by
  refine ⟨rfl, rfl, rfl, ?_⟩
  intro m hm
  simp only [composeMessages, profileMessage, List.mem_cons,
    List.not_mem_nil, or_false] at hm
  rcases hm with h | h | h <;> simp [h]

/-- Claim C10, confirmed: every successful cycle appends exactly the
user question then the assistant answer, so from an empty History the
log after N successful cycles has 2N entries strictly alternating
user/assistant starting with user. -/
theorem C10_log_alternates (qs : List String) (f : List Message → String)
    (t : Table) (hqs : ∀ q ∈ qs, pyStrip q ≠ "") :
    (runQueries (okLlm f) t [] qs).length = 2 * qs.length ∧
    alternatesUA (runQueries (okLlm f) t [] qs) = true ∧
    ∀ s q, pyStrip q ≠ "" →
      (processQuery (okLlm f) t s true q).state =
        s ++ [⟨Role.user, q⟩, ⟨Role.assistant, answerFor f t q⟩] := by
  rw [runQueries_ok f t [] qs hqs]
  refine ⟨by simpa using cycleLog_length f t qs,
    by simpa using alternatesUA_cycleLog f t qs, ?_⟩
  intro s q hq
  rw [processQuery_ok_eq f t s q hq]

/-- Witness for C10_log_alternates on two concrete successful cycles. -/
theorem C10_witness :
    (∀ q ∈ ["first question", "second question"], pyStrip q ≠ "") ∧
    (runQueries (okLlm (fun _ => "ans")) sampleTable []
        ["first question", "second question"]).length = 4 ∧
    alternatesUA (runQueries (okLlm (fun _ => "ans")) sampleTable []
        ["first question", "second question"]) = true :=
  ⟨by decide,
    (C10_log_alternates ["first question", "second question"] (fun _ => "ans")
      sampleTable (by decide)).1,
    (C10_log_alternates ["first question", "second question"] (fun _ => "ans")
      sampleTable (by decide)).2.1⟩

end ChatCSV
